import Mathlib

/-!
Shallow embedding of the RDMA transport core of `asystem-astate`
(`src/transport/rdma_transporter.cpp` together with its class header).

Modelling conventions:
* C pointers are `Nat`, with `0` standing for `nullptr`.
* Machine integers that can be negative (ports, timeouts, backend return
  codes) are `Int`; sizes and counters are `Nat`.  The one place the source
  narrows a value (`static_cast<uint32_t>(size)` for the local segment
  size) is modelled with an explicit `% 2 ^ 32`.
* Calls into the verbs backend (`utrans_*`) are recorded as explicit
  events; the backend behaviour for each attempt is an oracle parameter.
* C++ exceptions are explicit result constructors (`Except` inside the
  retry machinery, dedicated constructors at the public API boundary).
-/

namespace astate

/-- Backend success code `UTRANS_RET_SUCC` (external `libutrans` header;
the source only ever compares return codes against it, so its concrete
value is irrelevant and fixed to 0 here). -/
def UTRANS_RET_SUCC : Int := 0

/-- Backend success status `URES_SUCCESS` (external `libutrans` header,
same convention as `UTRANS_RET_SUCC`). -/
def URES_SUCCESS : Int := 0

/-- Transfer opcodes `USER_OP_WRITE` / `USER_OP_READ` of the backend. -/
inductive UserOp
  | write
  | read
deriving DecidableEq

/-- `trans_req_t` as initialised by `Send`/`Receive`:
`{inst_id, opcode, 1, rbuf, nullptr, {{local_addr, (uint32_t)size}}}`. -/
structure TransReqT where
  instId : Nat
  opcode : UserOp
  numSegs : Nat
  rbuf : Nat
  /-- the fifth aggregate member, always initialised to `nullptr`. -/
  aux : Nat
  /-- `lbuf_seg[0].addr_beg` -/
  lbufSegAddr : Nat
  /-- `lbuf_seg[0].trz_size`, a `uint32_t` -/
  lbufSegSize : Nat
deriving DecidableEq

/-- `trans_conf_t` as initialised by `Send`/`Receive`: `{4, 1024*1024, timeout}`. -/
structure TransConfT where
  numPollers : Nat
  chunkSize : Nat
  timeoutMs : Int
deriving DecidableEq

/-- One call into the verbs backend made by a `Send`/`Receive` attempt. -/
inductive BackendCall
  | queryInstId (host : String) (port : Int)
  | execTransfer (req : TransReqT) (conf : TransConfT)
  | unrefReqInfo
deriving DecidableEq

/-- An observable event of a `Send`/`Receive` call: a backend call or a
sleep inserted by the retry policy. -/
inductive CallEvent
  | backend (c : BackendCall)
  | sleep (ms : Int)
deriving DecidableEq

/-- Error classification of a C++ exception thrown by the per-attempt
body: `NonRetryableException` versus every other `std::exception`. -/
inductive ErrKind
  | retryable
  | nonRetryable
deriving DecidableEq

/-- Behaviour of the backend during one attempt of `Send`/`Receive`:
result of `utrans_query_instid`, the instance id it reports, whether
`utrans_exec_transfer` returns `nullptr`, and the status reported by
`utrans_get_req_exec_result`. -/
structure AttemptBehavior where
  queryRet : Int
  instId : Nat
  execNull : Bool
  execResult : Int

/-- `GetRemoteAddrFromExtendInfo` (class header): `nullptr` when the
extend info is null or empty, otherwise the `any_cast` pointer value of
element 0. -/
def GetRemoteAddrFromExtendInfo : Option (List Nat) → Nat
  | none => 0
  | some [] => 0
  | some (a :: _) => a

/-- The lambda `send_func` of `RDMATransporter::Send`: queries the remote
instance id, builds the WRITE request and submits it.  Returns the backend
calls made plus either the returned `bool` or the kind of exception
thrown (all of its own throws are `std::runtime_error`, i.e. retryable). -/
def sendFunc (writeTimeoutMs : Int) (localAddr sendSize rbuf : Nat)
    (host : String) (port : Int) (b : AttemptBehavior) :
    List CallEvent × Except ErrKind Bool :=
  if b.queryRet ≠ UTRANS_RET_SUCC then
    ([.backend (.queryInstId host port)], .error .retryable)
  else
    let req : TransReqT :=
      { instId := b.instId, opcode := .write, numSegs := 1, rbuf := rbuf,
        aux := 0, lbufSegAddr := localAddr, lbufSegSize := sendSize % 2 ^ 32 }
    let conf : TransConfT :=
      { numPollers := 4, chunkSize := 1024 * 1024, timeoutMs := writeTimeoutMs }
    if b.execNull then
      ([.backend (.queryInstId host port), .backend (.execTransfer req conf)],
       .error .retryable)
    else if b.execResult ≠ URES_SUCCESS then
      ([.backend (.queryInstId host port), .backend (.execTransfer req conf),
        .backend .unrefReqInfo], .error .retryable)
    else
      ([.backend (.queryInstId host port), .backend (.execTransfer req conf),
        .backend .unrefReqInfo], .ok true)

/-- The lambda `recv_func` of `RDMATransporter::Receive`: identical to
`send_func` except for the READ opcode and the read timeout. -/
def recvFunc (readTimeoutMs : Int) (localAddr recvSize rbuf : Nat)
    (host : String) (port : Int) (b : AttemptBehavior) :
    List CallEvent × Except ErrKind Bool :=
  if b.queryRet ≠ UTRANS_RET_SUCC then
    ([.backend (.queryInstId host port)], .error .retryable)
  else
    let req : TransReqT :=
      { instId := b.instId, opcode := .read, numSegs := 1, rbuf := rbuf,
        aux := 0, lbufSegAddr := localAddr, lbufSegSize := recvSize % 2 ^ 32 }
    let conf : TransConfT :=
      { numPollers := 4, chunkSize := 1024 * 1024, timeoutMs := readTimeoutMs }
    if b.execNull then
      ([.backend (.queryInstId host port), .backend (.execTransfer req conf)],
       .error .retryable)
    else if b.execResult ≠ URES_SUCCESS then
      ([.backend (.queryInstId host port), .backend (.execTransfer req conf),
        .backend .unrefReqInfo], .error .retryable)
    else
      ([.backend (.queryInstId host port), .backend (.execTransfer req conf),
        .backend .unrefReqInfo], .ok true)

/-- Modelled from the spec: `RetryUtils::Retry` driven by
`CountingAndSleepRetryPolicy(retry_count, retry_sleep_ms)` (the files
`common/retry/retry_utils.h` and `common/retry/counting_retry.h` are not
part of the provided sources).  Per spec section 4.5: the runner invokes
the body; a normal return stops; a non-retryable exception is rethrown
immediately; any other exception is followed by a sleep of
`retry_sleep_ms` and a retry until the retry counter is exhausted, after
which the last exception is surfaced.  `fuel` is the number of retries
still allowed, `i` the attempt index. -/
def retryRun (sleepMs : Int) (body : Nat → List CallEvent × Except ErrKind Bool) :
    Nat → Nat → List CallEvent × Except ErrKind Bool
  | i, 0 => body i
  | i, fuel + 1 =>
    let (es, r) := body i
    match r with
    | .ok b => (es, .ok b)
    | .error .nonRetryable => (es, .error .nonRetryable)
    | .error .retryable =>
      let (es2, r2) := retryRun sleepMs body (i + 1) fuel
      (es ++ CallEvent.sleep sleepMs :: es2, r2)

/-- Result of a public `Send`/`Receive` call: a returned boolean or a
`std::invalid_argument` exception propagating to the caller. -/
inductive CallResult
  | retBool (b : Bool)
  | invalidArgument
deriving DecidableEq

/-- The try/catch frame at the bottom of `Send` (and `Receive`): run the
retry loop; on normal completion return its boolean, on any surfaced
exception (`NonRetryableException` or other) log and return `false`. -/
def sendRetryFrame (retryCount : Nat) (retrySleepMs : Int)
    (body : Nat → List CallEvent × Except ErrKind Bool) : List CallEvent × Bool :=
  let (es, r) := retryRun retrySleepMs body 0 retryCount
  match r with
  | .ok v => (es, v)
  | .error _ => (es, false)

/-- The fields of `RDMATransporter` consulted by `Send`/`Receive`:
the backend context pointer, the two timeouts and the four
`TRANSPORT_*_RETRY_*` option values read from `options_`. -/
structure TransporterState where
  ctx : Nat
  writeTimeoutMs : Int
  readTimeoutMs : Int
  sendRetryCount : Nat
  sendRetrySleepMs : Int
  recvRetryCount : Nat
  recvRetrySleepMs : Int

/-- `RDMATransporter::Send`.  Validation in source order: a null context
returns `false`; a null buffer or zero size throws `std::invalid_argument`;
a null remote address throws `std::invalid_argument`.  Otherwise the
per-attempt body runs under the counting-and-sleep retry policy and a
surfaced exception becomes `false`.  `behavior i` is the backend
behaviour oracle for attempt `i`. -/
def RDMATransporter.Send (st : TransporterState) (localAddr sendSize : Nat)
    (remoteHost : String) (remotePort : Int) (extendInfo : Option (List Nat))
    (behavior : Nat → AttemptBehavior) : List CallEvent × CallResult :=
  if st.ctx = 0 then ([], .retBool false)
  else if localAddr = 0 ∨ sendSize = 0 then ([], .invalidArgument)
  else
    let rbuf := GetRemoteAddrFromExtendInfo extendInfo
    if rbuf = 0 then ([], .invalidArgument)
    else
      let (es, v) := sendRetryFrame st.sendRetryCount st.sendRetrySleepMs
        (fun i =>
          sendFunc st.writeTimeoutMs localAddr sendSize rbuf remoteHost remotePort
            (behavior i))
      (es, .retBool v)

/-- `RDMATransporter::Receive`.  Identical frame to `Send` except that a
null context throws `std::invalid_argument` (rather than returning
`false`), the opcode is READ, the read timeout is used and the receive
retry options apply. -/
def RDMATransporter.Receive (st : TransporterState) (localAddr recvSize : Nat)
    (remoteHost : String) (remotePort : Int) (extendInfo : Option (List Nat))
    (behavior : Nat → AttemptBehavior) : List CallEvent × CallResult :=
  if st.ctx = 0 then ([], .invalidArgument)
  else if localAddr = 0 ∨ recvSize = 0 then ([], .invalidArgument)
  else
    let rbuf := GetRemoteAddrFromExtendInfo extendInfo
    if rbuf = 0 then ([], .invalidArgument)
    else
      let (es, v) := sendRetryFrame st.recvRetryCount st.recvRetrySleepMs
        (fun i =>
          recvFunc st.readTimeoutMs localAddr recvSize rbuf remoteHost remotePort
            (behavior i))
      (es, .retBool v)

/-- One backend call made by `RegisterMemory`. -/
inductive RegEvent
  | registVram (addr len : Nat) (gpuIdOrNumaNode : Int)
  | registRam (addr len : Nat) (numaNode : Int)
deriving DecidableEq

/-- Result of a `RegisterMemory` call: a returned boolean or the
`std::runtime_error` raised on a null registration handle. -/
inductive RegResult
  | retBool (b : Bool)
  | runtimeError
deriving DecidableEq

/-- `RDMATransporter::RegisterMemory`: null context returns `false`;
VRAM registers with the caller-supplied gpu id, RAM registers with the
engine field `rdma_numa_node_`; a null handle (`mrNull`) throws
`std::runtime_error`; otherwise return `true`. -/
def RDMATransporter.RegisterMemory (ctx : Nat) (rdmaNumaNode : Int)
    (addr len : Nat) (isVram : Bool) (gpuIdOrNumaNode : Int) (mrNull : Bool) :
    List RegEvent × RegResult :=
  if ctx = 0 then ([], .retBool false)
  else
    let ev := if isVram then RegEvent.registVram addr len gpuIdOrNumaNode
              else RegEvent.registRam addr len rdmaNumaNode
    if mrNull then ([ev], .runtimeError)
    else ([ev], .retBool true)

/-- `kRdmaPortStart` (class header). -/
def kRdmaPortStart : Nat := 51010

/-- Transporter lifecycle state touched by `Start`, `Stop` and the
destructor.  Initial values are the C++ member initialisers
(`ctx_{nullptr}`, `local_server_port_{0}`, flags `false`). -/
structure EngineState where
  ctx : Nat
  localServerPort : Nat
  isRunning : Bool
  perfThreadStarted : Bool
  perfRunning : Bool
deriving DecidableEq

/-- The freshly constructed `RDMATransporter` (all member initialisers). -/
def initialEngineState : EngineState :=
  { ctx := 0, localServerPort := 0, isRunning := false,
    perfThreadStarted := false, perfRunning := false }

/-- `GetBindPort` (class header): returns `local_server_port_`. -/
def RDMATransporter.GetBindPort (s : EngineState) : Nat :=
  s.localServerPort

/-- Environment of one `Start` call: whether `utrans_setup` succeeds, the
`TRANSFER_ENGINE_SERVICE_FIXED_PORT` and `TRANSFER_ENGINE_LOCAL_PORT`
options, the perf-metrics enable flag, the random offset drawn by
`SetupRpcServerWithRetry` (uniform on `[0, 1000]`), the constant
`kBindPortMaxRetry` (declared outside the provided sources, kept
abstract), and the outcome of `utrans_setup_rpcsrv` as a function of the
configured listen port. -/
structure StartConfig where
  utransSetupOk : Bool
  fixedPort : Bool
  localPort : Nat
  enablePerfMetrics : Bool
  randomOffset : Nat
  maxRetry : Nat
  bindOk : Nat → Bool

/-- Local state of the `setup_func` lambda in `SetupRpcServerWithRetry`:
the captured `attempt_count` and `success` variables and the member
`local_server_port_` it writes. -/
structure ScanState where
  attemptCount : Nat
  success : Bool
  port : Nat
deriving DecidableEq

/-- The `setup_func` lambda: at `attempt_count ≥ kBindPortMaxRetry` it
throws; otherwise it tries to bind `base + attempt_count`; on success it
records the port and returns normally, on failure it increments
`attempt_count` and throws.  The boolean is `true` for a normal return,
`false` for a throw. -/
def scanSetupFunc (bindOk : Nat → Bool) (basePort maxRetry : Nat)
    (s : ScanState) : ScanState × Bool :=
  let currentPort := basePort + s.attemptCount
  if s.attemptCount ≥ maxRetry then (s, false)
  else if bindOk currentPort then
    ({ s with success := true, port := currentPort }, true)
  else
    ({ s with attemptCount := s.attemptCount + 1 }, false)

/-- Modelled from the spec: `RetryUtils::Retry` driven by
`CountingRetry(N)` (section 4.5: up to `N` retries, no sleep) over a
stateful body; the body result boolean is `true` for a normal return and
`false` for a throw, which is retried while fuel remains and surfaced
when it runs out. -/
def retryCounting {σ : Type} (body : σ → σ × Bool) : σ → Nat → σ × Bool
  | s, fuel =>
    let (s', ok) := body s
    if ok then (s', true)
    else
      match fuel with
      | 0 => (s', false)
      | fuel' + 1 => retryCounting body s' fuel'

/-- `RDMATransporter::SetupRpcServerWithRetry`: run `setup_func` under
`CountingRetry(kBindPortMaxRetry)`; a surfaced exception is caught and
becomes `false`, a normal completion returns the captured `success`.
Returns the final `local_server_port_` and the boolean result. -/
def SetupRpcServerWithRetry (bindOk : Nat → Bool) (basePort maxRetry port0 : Nat) :
    Nat × Bool :=
  let (s, ok) := retryCounting (scanSetupFunc bindOk basePort maxRetry)
    { attemptCount := 0, success := false, port := port0 } maxRetry
  (s.port, if ok then s.success else false)

/-- `RDMATransporter::SetupRpcServer`: fixed-port mode configures
`Options.local_port` and binds once, recording that port on success;
scan mode delegates to `SetupRpcServerWithRetry` with base
`kRdmaPortStart + random_offset`. -/
def SetupRpcServer (cfg : StartConfig) (port0 : Nat) : Nat × Bool :=
  if cfg.fixedPort then
    if cfg.bindOk cfg.localPort then (cfg.localPort, true) else (port0, false)
  else
    SetupRpcServerWithRetry cfg.bindOk (kRdmaPortStart + cfg.randomOffset)
      cfg.maxRetry port0

/-- `RDMATransporter::InitializePerfMetricsThread`: start the perf
logging thread iff `enable_perf_metrics_` is set and the context is
non-null. -/
def InitializePerfMetricsThread (enable : Bool) (s : EngineState) : EngineState :=
  if enable ∧ s.ctx ≠ 0 then
    { s with perfRunning := true, perfThreadStarted := true }
  else s

/-- `RDMATransporter::Start`: set up the utrans context (failure returns
`false`), set up the RPC server (failure returns `false`), start the
perf thread if enabled, mark the engine running. -/
def RDMATransporter.Start (cfg : StartConfig) (s : EngineState) :
    EngineState × Bool :=
  if ¬cfg.utransSetupOk then (s, false)
  else
    let s1 := { s with ctx := 1 }
    let (port, ok) := SetupRpcServer cfg s1.localServerPort
    if ¬ok then ({ s1 with localServerPort := port }, false)
    else
      let s2 := { s1 with localServerPort := port }
      let s3 := InitializePerfMetricsThread cfg.enablePerfMetrics s2
      ({ s3 with isRunning := true }, true)

/-- Teardown events of `Stop` and the destructor. -/
inductive TeardownEvent
  | setPerfNotRunning
  | joinPerfThread
  | cleanCtx
deriving DecidableEq

/-- Recogniser for `utrans_clean` calls among teardown events. -/
def isCleanEvent : TeardownEvent → Bool
  | .cleanCtx => true
  | _ => false

/-- `RDMATransporter::Stop`: return immediately when not running (checked
again under `close_mutex_`); otherwise stop and join the perf thread if
it is running, then clear `is_running_`.  The backend context is not
touched. -/
def RDMATransporter.Stop (s : EngineState) : EngineState × List TeardownEvent :=
  if ¬s.isRunning then (s, [])
  else
    let (s1, ev1) :=
      if s.perfRunning then
        ({ s with perfRunning := false },
         [TeardownEvent.setPerfNotRunning, TeardownEvent.joinPerfThread])
      else (s, [])
    ({ s1 with isRunning := false }, ev1)

/-- `RDMATransporter::~RDMATransporter`: call `Stop`, then release the
backend context with `utrans_clean` iff it is non-null, and null it. -/
def RDMATransporter.destructor (s : EngineState) :
    EngineState × List TeardownEvent :=
  let (s1, ev1) := RDMATransporter.Stop s
  if s1.ctx ≠ 0 then ({ s1 with ctx := 0 }, ev1 ++ [TeardownEvent.cleanCtx])
  else (s1, ev1)

/-- One tick of `RDMATransporter::PerfMetricsLoggingThread` after the
interval sleep: `utrans_print_perf_info` is called iff
`now - last_send_receive_time_ < 1000` and the context is non-null.
Returns whether `print_perf` was called. -/
def perfTickPrints (ctx : Nat) (now lastActivity : Int) : Bool :=
  if now - lastActivity < 1000 then
    if ctx ≠ 0 then true else false
  else false

/-- Classification of one invocation of a mocked per-attempt body
(spec section 8, properties 6 and 7): it performs one backend submission
and then succeeds, throws a retryable error, or throws
`NonRetryableException`. -/
inductive AttemptOutcome
  | succeeds
  | failsRetryable
  | failsNonRetryable
deriving DecidableEq

/-- A mocked per-attempt body for `Send`: one `exec_transfer` submission
whose outcome for attempt `i` is `outcome i`. -/
def mockSendBody (req : TransReqT) (conf : TransConfT)
    (outcome : Nat → AttemptOutcome) (i : Nat) :
    List CallEvent × Except ErrKind Bool :=
  match outcome i with
  | .succeeds => ([.backend (.execTransfer req conf)], .ok true)
  | .failsRetryable => ([.backend (.execTransfer req conf)], .error .retryable)
  | .failsNonRetryable =>
    ([.backend (.execTransfer req conf)], .error .nonRetryable)

/-- Recogniser for backend submissions (`utrans_exec_transfer` calls). -/
def isSubmissionEvent : CallEvent → Bool
  | .backend (.execTransfer _ _) => true
  | _ => false

/-- Recogniser for op-handle releases (`utrans_unref_req_info` calls). -/
def isUnrefEvent : CallEvent → Bool
  | .backend .unrefReqInfo => true
  | _ => false

/-- The event trace demanded of a mocked `Send` that fails `k` times and
then succeeds: `k + 1` submissions separated by sleeps of `sleepMs`. -/
def alternatingTrace (req : TransReqT) (conf : TransConfT) (sleepMs : Int) :
    Nat → List CallEvent
  | 0 => [.backend (.execTransfer req conf)]
  | k + 1 =>
    .backend (.execTransfer req conf) :: .sleep sleepMs ::
      alternatingTrace req conf sleepMs k

/-- C3: with an uninitialized backend context (`ctx_ == nullptr`), `Send`
returns `false` without raising and without any backend call, whereas
`Receive` raises `std::invalid_argument`; the two outcomes differ. -/
theorem send_receive_uninitialized_context_asymmetry
    (st : TransporterState) (a n : Nat) (h : String) (p : Int)
    (e : Option (List Nat)) (b : Nat → AttemptBehavior)
    (hctx : st.ctx = 0) :
    RDMATransporter.Send st a n h p e b = ([], .retBool false) ∧
    RDMATransporter.Receive st a n h p e b = ([], .invalidArgument) ∧
    CallResult.retBool false ≠ CallResult.invalidArgument := by
  refine ⟨?_, ?_, by decide⟩
  · simp [RDMATransporter.Send, hctx]
  · simp [RDMATransporter.Receive, hctx]

theorem send_receive_uninitialized_context_asymmetry_witness :
    RDMATransporter.Send ⟨0, -1, -1, 1, 5, 1, 5⟩ 1 8 "h" 9 (some [3])
        (fun _ => ⟨0, 7, false, 0⟩) = ([], .retBool false) ∧
    RDMATransporter.Receive ⟨0, -1, -1, 1, 5, 1, 5⟩ 1 8 "h" 9 (some [3])
        (fun _ => ⟨0, 7, false, 0⟩) = ([], .invalidArgument) ∧
    CallResult.retBool false ≠ CallResult.invalidArgument :=
  send_receive_uninitialized_context_asymmetry ⟨0, -1, -1, 1, 5, 1, 5⟩ 1 8 "h" 9
    (some [3]) (fun _ => ⟨0, 7, false, 0⟩) rfl

/-- C8: with an initialized context, `RegisterMemory` with `is_vram = false`
dispatches a RAM registration carrying the engine field `rdma_numa_node_`,
the caller argument `gpu_id_or_numa_node` being ignored (the whole call
result is independent of it); a null registration handle raises
`std::runtime_error`, a non-null handle yields `true`. -/
theorem register_memory_ram_numa_and_null_handle
    (ctx : Nat) (rdmaNumaNode : Int) (addr len : Nat) (g : Int) (mrNull : Bool)
    (hctx : ctx ≠ 0) :
    (RDMATransporter.RegisterMemory ctx rdmaNumaNode addr len false g mrNull).1
      = [RegEvent.registRam addr len rdmaNumaNode] ∧
    (∀ g2 : Int,
      RDMATransporter.RegisterMemory ctx rdmaNumaNode addr len false g mrNull
        = RDMATransporter.RegisterMemory ctx rdmaNumaNode addr len false g2 mrNull) ∧
    (mrNull = true →
      (RDMATransporter.RegisterMemory ctx rdmaNumaNode addr len false g mrNull).2
        = .runtimeError) ∧
    (mrNull = false →
      (RDMATransporter.RegisterMemory ctx rdmaNumaNode addr len false g mrNull).2
        = .retBool true) := by
  cases mrNull <;>
    simp [RDMATransporter.RegisterMemory, hctx]

theorem register_memory_ram_numa_and_null_handle_witness :
    (RDMATransporter.RegisterMemory 1 2 100 64 false 9 false).1
      = [RegEvent.registRam 100 64 2] ∧
    (∀ g2 : Int,
      RDMATransporter.RegisterMemory 1 2 100 64 false 9 false
        = RDMATransporter.RegisterMemory 1 2 100 64 false g2 false) ∧
    (false = true →
      (RDMATransporter.RegisterMemory 1 2 100 64 false 9 false).2 = .runtimeError) ∧
    (false = false →
      (RDMATransporter.RegisterMemory 1 2 100 64 false 9 false).2 = .retBool true) :=
  register_memory_ram_numa_and_null_handle 1 2 100 64 9 false (by decide)

/-- C9: in every `Send`/`Receive` attempt the number of
`utrans_unref_req_info` calls equals one exactly when a non-null op
handle was obtained from `utrans_exec_transfer` (and zero otherwise), and
on the paths where a handle was obtained the trace ends with the release:
before raising on a non-success status, and on the success path. -/
theorem op_handle_release_balanced
    (wt rt : Int) (a n rbuf : Nat) (h : String) (p : Int) (b : AttemptBehavior) :
    (((sendFunc wt a n rbuf h p b).1.filter isUnrefEvent).length
      = if b.queryRet = UTRANS_RET_SUCC ∧ b.execNull = false then 1 else 0) ∧
    (((recvFunc rt a n rbuf h p b).1.filter isUnrefEvent).length
      = if b.queryRet = UTRANS_RET_SUCC ∧ b.execNull = false then 1 else 0) ∧
    (b.queryRet = UTRANS_RET_SUCC → b.execNull = false →
      b.execResult ≠ URES_SUCCESS →
      sendFunc wt a n rbuf h p b
        = ([.backend (.queryInstId h p),
            .backend (.execTransfer ⟨b.instId, .write, 1, rbuf, 0, a, n % 2 ^ 32⟩
              ⟨4, 1024 * 1024, wt⟩),
            .backend .unrefReqInfo], .error .retryable) ∧
      recvFunc rt a n rbuf h p b
        = ([.backend (.queryInstId h p),
            .backend (.execTransfer ⟨b.instId, .read, 1, rbuf, 0, a, n % 2 ^ 32⟩
              ⟨4, 1024 * 1024, rt⟩),
            .backend .unrefReqInfo], .error .retryable)) ∧
    (b.queryRet = UTRANS_RET_SUCC → b.execNull = false →
      b.execResult = URES_SUCCESS →
      sendFunc wt a n rbuf h p b
        = ([.backend (.queryInstId h p),
            .backend (.execTransfer ⟨b.instId, .write, 1, rbuf, 0, a, n % 2 ^ 32⟩
              ⟨4, 1024 * 1024, wt⟩),
            .backend .unrefReqInfo], .ok true) ∧
      recvFunc rt a n rbuf h p b
        = ([.backend (.queryInstId h p),
            .backend (.execTransfer ⟨b.instId, .read, 1, rbuf, 0, a, n % 2 ^ 32⟩
              ⟨4, 1024 * 1024, rt⟩),
            .backend .unrefReqInfo], .ok true)) := by
  by_cases hq : b.queryRet = UTRANS_RET_SUCC <;>
    cases hbn : b.execNull <;>
      by_cases hr : b.execResult = URES_SUCCESS <;>
        simp [sendFunc, recvFunc, hq, hbn, hr, isUnrefEvent, List.filter]

theorem op_handle_release_balanced_witness :
    (((sendFunc (-1) 1 8 3 "h" 9 ⟨0, 7, false, 5⟩).1.filter isUnrefEvent).length
      = if (0 : Int) = UTRANS_RET_SUCC ∧ false = false then 1 else 0) ∧
    (((recvFunc (-1) 1 8 3 "h" 9 ⟨0, 7, false, 5⟩).1.filter isUnrefEvent).length
      = if (0 : Int) = UTRANS_RET_SUCC ∧ false = false then 1 else 0) ∧
    ((0 : Int) = UTRANS_RET_SUCC → false = false → (5 : Int) ≠ URES_SUCCESS →
      sendFunc (-1) 1 8 3 "h" 9 ⟨0, 7, false, 5⟩
        = ([.backend (.queryInstId "h" 9),
            .backend (.execTransfer ⟨7, .write, 1, 3, 0, 1, 8 % 2 ^ 32⟩
              ⟨4, 1024 * 1024, -1⟩),
            .backend .unrefReqInfo], .error .retryable) ∧
      recvFunc (-1) 1 8 3 "h" 9 ⟨0, 7, false, 5⟩
        = ([.backend (.queryInstId "h" 9),
            .backend (.execTransfer ⟨7, .read, 1, 3, 0, 1, 8 % 2 ^ 32⟩
              ⟨4, 1024 * 1024, -1⟩),
            .backend .unrefReqInfo], .error .retryable)) ∧
    ((0 : Int) = UTRANS_RET_SUCC → false = false → (5 : Int) = URES_SUCCESS →
      sendFunc (-1) 1 8 3 "h" 9 ⟨0, 7, false, 5⟩
        = ([.backend (.queryInstId "h" 9),
            .backend (.execTransfer ⟨7, .write, 1, 3, 0, 1, 8 % 2 ^ 32⟩
              ⟨4, 1024 * 1024, -1⟩),
            .backend .unrefReqInfo], .ok true) ∧
      recvFunc (-1) 1 8 3 "h" 9 ⟨0, 7, false, 5⟩
        = ([.backend (.queryInstId "h" 9),
            .backend (.execTransfer ⟨7, .read, 1, 3, 0, 1, 8 % 2 ^ 32⟩
              ⟨4, 1024 * 1024, -1⟩),
            .backend .unrefReqInfo], .ok true)) :=
  op_handle_release_balanced (-1) (-1) 1 8 3 "h" 9 ⟨0, 7, false, 5⟩

/-- C10: a freshly constructed transporter reports `GetBindPort() = 0`
(the member initialiser of `local_server_port_`), and a `Start` that
fails before binding the listener (here: `utrans_setup` failure) returns
`false` and still reports `GetBindPort() = 0`. -/
theorem get_bind_port_zero_before_bind
    (cfg : StartConfig) (hsetup : cfg.utransSetupOk = false) :
    RDMATransporter.GetBindPort initialEngineState = 0 ∧
    (RDMATransporter.Start cfg initialEngineState).2 = false ∧
    RDMATransporter.GetBindPort (RDMATransporter.Start cfg initialEngineState).1
      = 0 := by
  refine ⟨rfl, ?_, ?_⟩ <;>
    simp [RDMATransporter.Start, hsetup, RDMATransporter.GetBindPort,
      initialEngineState]

theorem get_bind_port_zero_before_bind_witness :
    RDMATransporter.GetBindPort initialEngineState = 0 ∧
    (RDMATransporter.Start ⟨false, true, 19001, false, 0, 3, fun _ => true⟩
      initialEngineState).2 = false ∧
    RDMATransporter.GetBindPort
      (RDMATransporter.Start ⟨false, true, 19001, false, 0, 3, fun _ => true⟩
        initialEngineState).1 = 0 :=
  get_bind_port_zero_before_bind ⟨false, true, 19001, false, 0, 3, fun _ => true⟩
    rfl

/-- C5: a second `Stop` (guarded by the running flag under `close_mutex_`)
is a no-op; in every teardown the perf thread is set not-running and
joined strictly before `utrans_clean` releases the backend context;
`Stop` itself never releases the context, the destructor releases it
exactly once (and only if it was live), and after the destructor the
context is null so a repeated teardown releases nothing. -/
theorem stop_idempotent_and_teardown_order (s : EngineState) :
    RDMATransporter.Stop (RDMATransporter.Stop s).1
      = ((RDMATransporter.Stop s).1, []) ∧
    ((RDMATransporter.Stop s).2.filter isCleanEvent) = [] ∧
    ((RDMATransporter.destructor s).2.filter isCleanEvent).length
      = (if s.ctx ≠ 0 then 1 else 0) ∧
    ((RDMATransporter.destructor s).2
      = (RDMATransporter.Stop s).2
        ++ (if s.ctx ≠ 0 then [TeardownEvent.cleanCtx] else [])) ∧
    (s.isRunning = true → s.perfRunning = true →
      (RDMATransporter.Stop s).2
        = [TeardownEvent.setPerfNotRunning, TeardownEvent.joinPerfThread]) ∧
    (RDMATransporter.destructor s).1.ctx = 0 ∧
    ((RDMATransporter.destructor (RDMATransporter.destructor s).1).2.filter
      isCleanEvent) = [] := by
  obtain ⟨c, lp, ir, pts, pr⟩ := s
  cases ir <;> cases pr <;> by_cases hc : c = 0 <;>
    simp [RDMATransporter.Stop, RDMATransporter.destructor, hc, isCleanEvent,
      List.filter]

theorem stop_idempotent_and_teardown_order_witness :
    RDMATransporter.Stop (RDMATransporter.Stop ⟨1, 0, true, true, true⟩).1
      = ((RDMATransporter.Stop ⟨1, 0, true, true, true⟩).1, []) ∧
    ((RDMATransporter.destructor ⟨1, 0, true, true, true⟩).2.filter
      isCleanEvent).length = 1 :=
  ⟨(stop_idempotent_and_teardown_order ⟨1, 0, true, true, true⟩).1,
   (stop_idempotent_and_teardown_order ⟨1, 0, true, true, true⟩).2.2.1.trans
     (by decide)⟩

/-- C6: with a live context, one perf-sampler tick calls
`utrans_print_perf_info` exactly when `now - last_send_receive_time_` is
below 1000 ms; and with `enable_perf_metrics = false` the perf worker
thread is never started, neither by `InitializePerfMetricsThread` nor
across a whole `Start`. -/
theorem perf_tick_gate_and_disabled_never_started
    (ctx : Nat) (now last : Int) (cfg : StartConfig) (s : EngineState)
    (hctx : ctx ≠ 0) (hperf : cfg.enablePerfMetrics = false) :
    (perfTickPrints ctx now last = true ↔ now - last < 1000) ∧
    InitializePerfMetricsThread false s = s ∧
    (RDMATransporter.Start cfg s).1.perfThreadStarted = s.perfThreadStarted := by
  refine ⟨?_, ?_, ?_⟩
  · simp [perfTickPrints, hctx]
  · simp [InitializePerfMetricsThread]
  · rcases hsp : SetupRpcServer cfg s.localServerPort with ⟨port, ok⟩
    cases hsetup : cfg.utransSetupOk <;> cases ok <;>
      simp [RDMATransporter.Start, hsetup, hsp, InitializePerfMetricsThread,
        hperf]

theorem perf_tick_gate_and_disabled_never_started_witness :
    (perfTickPrints 1 500 0 = true ↔ (500 : Int) - 0 < 1000) ∧
    InitializePerfMetricsThread false initialEngineState = initialEngineState ∧
    (RDMATransporter.Start ⟨true, true, 19001, false, 0, 3, fun _ => true⟩
      initialEngineState).1.perfThreadStarted
      = initialEngineState.perfThreadStarted :=
  perf_tick_gate_and_disabled_never_started 1 500 0
    ⟨true, true, 19001, false, 0, 3, fun _ => true⟩ initialEngineState
    (by decide) rfl

/-- C1 counterexample: with an initialized context, `Send` with
`length == 0` throws `std::invalid_argument` to the caller instead of
returning `false` (it does perform no backend call). -/
theorem send_zero_length_throws_counterexample :
    RDMATransporter.Send ⟨1, -1, -1, 3, 10, 3, 10⟩ 1 0 "h" 9 (some [3])
      (fun _ => ⟨0, 7, false, 0⟩) = ([], .invalidArgument) ∧
    CallResult.invalidArgument ≠ CallResult.retBool false := by
  exact ⟨by decide, by decide⟩

/-- C1 amended: `Send`/`Receive` with `length == 0` or a null
`local_addr` performs no backend call; with an initialized context both
raise a non-retryable `std::invalid_argument` error (rather than
returning `false`); with an uninitialized context `Send` returns `false`
and `Receive` raises. -/
theorem send_receive_invalid_args_no_backend_call
    (st : TransporterState) (a n : Nat) (h : String) (p : Int)
    (e : Option (List Nat)) (b : Nat → AttemptBehavior)
    (harg : a = 0 ∨ n = 0) :
    (RDMATransporter.Send st a n h p e b).1 = [] ∧
    (RDMATransporter.Receive st a n h p e b).1 = [] ∧
    (st.ctx ≠ 0 →
      (RDMATransporter.Send st a n h p e b).2 = .invalidArgument ∧
      (RDMATransporter.Receive st a n h p e b).2 = .invalidArgument) ∧
    (st.ctx = 0 →
      (RDMATransporter.Send st a n h p e b).2 = .retBool false ∧
      (RDMATransporter.Receive st a n h p e b).2 = .invalidArgument) := by
  by_cases hc : st.ctx = 0 <;>
    rcases harg with h0 | h0 <;> subst h0 <;>
      simp [RDMATransporter.Send, RDMATransporter.Receive, hc]

theorem send_receive_invalid_args_no_backend_call_witness :
    (RDMATransporter.Send ⟨1, -1, -1, 3, 10, 3, 10⟩ 1 0 "h" 9 (some [3])
      (fun _ => ⟨0, 7, false, 0⟩)).1 = [] ∧
    (RDMATransporter.Receive ⟨1, -1, -1, 3, 10, 3, 10⟩ 1 0 "h" 9 (some [3])
      (fun _ => ⟨0, 7, false, 0⟩)).1 = [] ∧
    ((1 : Nat) ≠ 0 →
      (RDMATransporter.Send ⟨1, -1, -1, 3, 10, 3, 10⟩ 1 0 "h" 9 (some [3])
        (fun _ => ⟨0, 7, false, 0⟩)).2 = .invalidArgument ∧
      (RDMATransporter.Receive ⟨1, -1, -1, 3, 10, 3, 10⟩ 1 0 "h" 9 (some [3])
        (fun _ => ⟨0, 7, false, 0⟩)).2 = .invalidArgument) ∧
    ((1 : Nat) = 0 →
      (RDMATransporter.Send ⟨1, -1, -1, 3, 10, 3, 10⟩ 1 0 "h" 9 (some [3])
        (fun _ => ⟨0, 7, false, 0⟩)).2 = .retBool false ∧
      (RDMATransporter.Receive ⟨1, -1, -1, 3, 10, 3, 10⟩ 1 0 "h" 9 (some [3])
        (fun _ => ⟨0, 7, false, 0⟩)).2 = .invalidArgument) :=
  send_receive_invalid_args_no_backend_call ⟨1, -1, -1, 3, 10, 3, 10⟩ 1 0 "h" 9
    (some [3]) (fun _ => ⟨0, 7, false, 0⟩) (Or.inr rfl)

/-- C7 counterexample: the local segment size field is the C++
`static_cast<uint32_t>(size)`, so a `Send` of length `2 ^ 32` submits a
request whose single local segment has size `0`, not `length`. -/
theorem send_segment_size_truncation_counterexample :
    RDMATransporter.Send ⟨1, -1, -1, 3, 10, 3, 10⟩ 1 (2 ^ 32) "h" 9 (some [3])
      (fun _ => ⟨0, 7, false, 0⟩)
    = ([.backend (.queryInstId "h" 9),
        .backend (.execTransfer ⟨7, .write, 1, 3, 0, 1, 0⟩ ⟨4, 1048576, -1⟩),
        .backend .unrefReqInfo], .retBool true) ∧
    (0 : Nat) ≠ 2 ^ 32 := by
  exact ⟨by decide, by decide⟩

/-- C7 amended: every `Send` attempt builds a WRITE request and every
`Receive` attempt a READ request, with a single local segment
`{local_addr, length mod 2^32}` (the length is narrowed to the backend's
32-bit segment-size field, hence equal to `length` whenever
`length < 2^32`), the remote buffer from extend-info element 0, the
resolved `inst_id` as target, and config exactly
`{pollers = 4, chunk = 1 MiB, timeout = write_timeout_ms | read_timeout_ms}`
with a `-1` timeout propagated verbatim. -/
theorem send_receive_request_shape
    (wt rt : Int) (a n rbuf : Nat) (h : String) (p : Int) (b : AttemptBehavior)
    (hq : b.queryRet = UTRANS_RET_SUCC) :
    (sendFunc wt a n rbuf h p b).1.take 2
      = [.backend (.queryInstId h p),
         .backend (.execTransfer ⟨b.instId, .write, 1, rbuf, 0, a, n % 2 ^ 32⟩
           ⟨4, 1024 * 1024, wt⟩)] ∧
    (recvFunc rt a n rbuf h p b).1.take 2
      = [.backend (.queryInstId h p),
         .backend (.execTransfer ⟨b.instId, .read, 1, rbuf, 0, a, n % 2 ^ 32⟩
           ⟨4, 1024 * 1024, rt⟩)] ∧
    (∀ a0 : Nat, ∀ rest : List Nat,
      GetRemoteAddrFromExtendInfo (some (a0 :: rest)) = a0) ∧
    (n < 2 ^ 32 → n % 2 ^ 32 = n) := by
  refine ⟨?_, ?_, fun a0 rest => rfl, fun hn => Nat.mod_eq_of_lt hn⟩ <;>
    cases hbn : b.execNull <;>
      by_cases hr : b.execResult = URES_SUCCESS <;>
        simp [sendFunc, recvFunc, hq, hbn, hr]

theorem send_receive_request_shape_witness :
    (sendFunc (-1) 1 8 3 "h" 9 ⟨0, 7, false, 0⟩).1.take 2
      = [.backend (.queryInstId "h" 9),
         .backend (.execTransfer ⟨7, .write, 1, 3, 0, 1, 8 % 2 ^ 32⟩
           ⟨4, 1024 * 1024, -1⟩)] ∧
    (recvFunc (-1) 1 8 3 "h" 9 ⟨0, 7, false, 0⟩).1.take 2
      = [.backend (.queryInstId "h" 9),
         .backend (.execTransfer ⟨7, .read, 1, 3, 0, 1, 8 % 2 ^ 32⟩
           ⟨4, 1024 * 1024, -1⟩)] ∧
    (∀ a0 : Nat, ∀ rest : List Nat,
      GetRemoteAddrFromExtendInfo (some (a0 :: rest)) = a0) ∧
    ((8 : Nat) < 2 ^ 32 → (8 : Nat) % 2 ^ 32 = 8) :=
  send_receive_request_shape (-1) (-1) 1 8 3 "h" 9 ⟨0, 7, false, 0⟩ rfl

lemma retryRun_mock_first_success (req : TransReqT) (conf : TransConfT)
    (S : Int) (outcome : Nat → AttemptOutcome) :
    ∀ k i fuel,
      (∀ j, j < k → outcome (i + j) = AttemptOutcome.failsRetryable) →
      outcome (i + k) = AttemptOutcome.succeeds → k ≤ fuel →
      retryRun S (mockSendBody req conf outcome) i fuel
        = (alternatingTrace req conf S k, .ok true) := by
  intro k
  induction k with
  | zero =>
    intro i fuel _ hs _
    have hsi : outcome i = AttemptOutcome.succeeds := hs
    cases fuel <;> simp [retryRun, mockSendBody, hsi, alternatingTrace]
  | succ k ih =>
    intro i fuel hf hs hk
    have h0 : outcome i = AttemptOutcome.failsRetryable := hf 0 (Nat.succ_pos k)
    obtain ⟨fuel2, rfl⟩ : ∃ f, fuel = f + 1 := ⟨fuel - 1, by omega⟩
    have hf2 : ∀ j, j < k → outcome (i + 1 + j) = AttemptOutcome.failsRetryable := by
      intro j hj
      have := hf (j + 1) (Nat.succ_lt_succ hj)
      rwa [show i + (j + 1) = i + 1 + j by omega] at this
    have hs2 : outcome (i + 1 + k) = AttemptOutcome.succeeds := by
      rwa [show i + (k + 1) = i + 1 + k by omega] at hs
    simp only [retryRun, mockSendBody, h0]
    rw [ih (i + 1) fuel2 hf2 hs2 (Nat.succ_le_succ_iff.mp hk)]
    simp [alternatingTrace]

lemma alternatingTrace_submission_count (req : TransReqT) (conf : TransConfT)
    (S : Int) :
    ∀ k, ((alternatingTrace req conf S k).filter isSubmissionEvent).length
      = k + 1 := by
  intro k
  induction k with
  | zero => simp [alternatingTrace, isSubmissionEvent, List.filter]
  | succ k ih => simp [alternatingTrace, isSubmissionEvent, List.filter, ih]

/-- C2: under the counting-and-sleep retry frame of `Send`, a mocked
per-attempt body that fails with a retryable error exactly `k` times,
`k < retry_count`, and then succeeds yields `true` with exactly `k + 1`
backend submissions separated by sleeps of `retry_sleep_ms`; a body that
throws `NonRetryableException` on the first attempt yields `false` after
exactly one backend submission. -/
theorem send_retry_mock_semantics
    (retryCount : Nat) (S : Int) (req : TransReqT) (conf : TransConfT)
    (outcome : Nat → AttemptOutcome) (k : Nat)
    (hfail : ∀ j, j < k → outcome j = AttemptOutcome.failsRetryable)
    (hsucc : outcome k = AttemptOutcome.succeeds)
    (hk : k < retryCount) :
    sendRetryFrame retryCount S (mockSendBody req conf outcome)
      = (alternatingTrace req conf S k, true) ∧
    ((alternatingTrace req conf S k).filter isSubmissionEvent).length = k + 1 ∧
    (∀ outcome2 : Nat → AttemptOutcome,
      outcome2 0 = AttemptOutcome.failsNonRetryable →
      sendRetryFrame retryCount S (mockSendBody req conf outcome2)
        = ([.backend (.execTransfer req conf)], false)) := by
  refine ⟨?_, alternatingTrace_submission_count req conf S k, ?_⟩
  · have hrun := retryRun_mock_first_success req conf S outcome k 0 retryCount
      (fun j hj => by simpa using hfail j hj) (by simpa using hsucc)
      (Nat.le_of_lt hk)
    simp [sendRetryFrame, hrun]
  · intro outcome2 h2
    cases retryCount <;> simp [sendRetryFrame, retryRun, mockSendBody, h2]

theorem send_retry_mock_semantics_witness :
    (sendRetryFrame 3 10 (mockSendBody ⟨7, .write, 1, 3, 0, 1, 8⟩ ⟨4, 1048576, -1⟩
        (fun i => if i = 0 then AttemptOutcome.failsRetryable
                  else AttemptOutcome.succeeds))
      = (alternatingTrace ⟨7, .write, 1, 3, 0, 1, 8⟩ ⟨4, 1048576, -1⟩ 10 1,
         true)) ∧
    ((alternatingTrace ⟨7, .write, 1, 3, 0, 1, 8⟩ ⟨4, 1048576, -1⟩ 10 1).filter
      isSubmissionEvent).length = 1 + 1 ∧
    (∀ outcome2 : Nat → AttemptOutcome,
      outcome2 0 = AttemptOutcome.failsNonRetryable →
      sendRetryFrame 3 10 (mockSendBody ⟨7, .write, 1, 3, 0, 1, 8⟩
          ⟨4, 1048576, -1⟩ outcome2)
        = ([.backend (.execTransfer ⟨7, .write, 1, 3, 0, 1, 8⟩ ⟨4, 1048576, -1⟩)],
           false)) :=
  send_retry_mock_semantics 3 10 ⟨7, .write, 1, 3, 0, 1, 8⟩ ⟨4, 1048576, -1⟩
    (fun i => if i = 0 then AttemptOutcome.failsRetryable
              else AttemptOutcome.succeeds) 1
    (fun j hj => by
      have hj0 : j = 0 := Nat.lt_one_iff.mp hj
      subst hj0
      decide)
    rfl (by decide)

lemma initPerf_localServerPort (e : Bool) (s : EngineState) :
    (InitializePerfMetricsThread e s).localServerPort = s.localServerPort := by
  unfold InitializePerfMetricsThread
  split <;> rfl

lemma retryCounting_scan_reaches_first_success
    (bindOk : Nat → Bool) (basePort maxRetry i0 : Nat)
    (h0 : bindOk (basePort + i0) = true) (h1 : i0 < maxRetry) :
    ∀ fuel j p, (∀ m, j ≤ m → m < i0 → bindOk (basePort + m) = false) →
      j ≤ i0 → i0 - j ≤ fuel →
      retryCounting (scanSetupFunc bindOk basePort maxRetry)
        ⟨j, false, p⟩ fuel
        = (⟨i0, true, basePort + i0⟩, true) := by
  intro fuel
  induction fuel with
  | zero =>
    intro j p hmin hj hfuel
    have hji : j = i0 := by omega
    subst hji
    rw [retryCounting]
    simp [scanSetupFunc, h0, show ¬j ≥ maxRetry by omega]
  | succ fuel ih =>
    intro j p hmin hj hfuel
    by_cases hji : j = i0
    · subst hji
      rw [retryCounting]
      simp [scanSetupFunc, h0, show ¬j ≥ maxRetry by omega]
    · have hjlt : j < i0 := lt_of_le_of_ne hj hji
      have hbf : bindOk (basePort + j) = false := hmin j le_rfl hjlt
      rw [retryCounting]
      simp only [scanSetupFunc, show ¬j ≥ maxRetry by omega, if_false, hbf,
        Bool.false_eq_true, if_neg, ite_false]
      exact ih (j + 1) p (fun m hm1 hm2 => hmin m (by omega) hm2) (by omega)
        (by omega)

lemma retryCounting_scan_exhausts
    (bindOk : Nat → Bool) (basePort maxRetry : Nat)
    (hall : ∀ m, m < maxRetry → bindOk (basePort + m) = false) :
    ∀ fuel j p, j + fuel = maxRetry →
      retryCounting (scanSetupFunc bindOk basePort maxRetry) ⟨j, false, p⟩ fuel
        = (⟨maxRetry, false, p⟩, false) := by
  intro fuel
  induction fuel with
  | zero =>
    intro j p hj
    have hji : j = maxRetry := by omega
    subst hji
    rw [retryCounting]
    simp [scanSetupFunc]
  | succ fuel ih =>
    intro j p hj
    have hjlt : j < maxRetry := by omega
    have hbf : bindOk (basePort + j) = false := hall j hjlt
    rw [retryCounting]
    simp only [scanSetupFunc, show ¬j ≥ maxRetry by omega, if_false, hbf,
      Bool.false_eq_true, if_neg, ite_false]
    exact ih (j + 1) p (by omega)

/-- C4: after a successful `Start` in fixed-port mode `GetBindPort()`
equals `Options.local_port`; in scan mode, with the random offset
`r ≤ 1000` and `base = 51010 + r`, a first successful bind at attempt
`i` yields `GetBindPort() = base + i`, which lies in
`[51010, 51010 + 1000 + kBindPortMaxRetry)`; if all `kBindPortMaxRetry`
attempts fail, `Start` returns `false`. -/
theorem start_bind_port_semantics
    (cfg : StartConfig) (s : EngineState)
    (hsetup : cfg.utransSetupOk = true) (hr : cfg.randomOffset ≤ 1000) :
    (cfg.fixedPort = true → (RDMATransporter.Start cfg s).2 = true →
      RDMATransporter.GetBindPort (RDMATransporter.Start cfg s).1
        = cfg.localPort) ∧
    (cfg.fixedPort = false →
      ∀ i0, i0 < cfg.maxRetry →
        cfg.bindOk (kRdmaPortStart + cfg.randomOffset + i0) = true →
        (∀ m, m < i0 →
          cfg.bindOk (kRdmaPortStart + cfg.randomOffset + m) = false) →
        (RDMATransporter.Start cfg s).2 = true ∧
        RDMATransporter.GetBindPort (RDMATransporter.Start cfg s).1
          = kRdmaPortStart + cfg.randomOffset + i0 ∧
        51010 ≤ kRdmaPortStart + cfg.randomOffset + i0 ∧
        kRdmaPortStart + cfg.randomOffset + i0
          < 51010 + 1000 + cfg.maxRetry) ∧
    (cfg.fixedPort = false →
      (∀ m, m < cfg.maxRetry →
        cfg.bindOk (kRdmaPortStart + cfg.randomOffset + m) = false) →
      (RDMATransporter.Start cfg s).2 = false) := by
  refine ⟨?_, ?_, ?_⟩
  · intro hf hok
    by_cases hb : cfg.bindOk cfg.localPort = true
    · have hsp : SetupRpcServer cfg s.localServerPort = (cfg.localPort, true) := by
        simp [SetupRpcServer, hf, hb]
      simp [RDMATransporter.Start, hsetup, hsp, RDMATransporter.GetBindPort,
        initPerf_localServerPort]
    · have hsp : SetupRpcServer cfg s.localServerPort
          = (s.localServerPort, false) := by
        simp [SetupRpcServer, hf, hb]
      simp [RDMATransporter.Start, hsetup, hsp] at hok
  · intro hf i0 hi0 hbind hmin
    have hrun := retryCounting_scan_reaches_first_success cfg.bindOk
      (kRdmaPortStart + cfg.randomOffset) cfg.maxRetry i0 hbind hi0
      cfg.maxRetry 0 s.localServerPort (fun m _ hm2 => hmin m hm2)
      (Nat.zero_le i0) (by omega)
    have hsp : SetupRpcServer cfg s.localServerPort
        = (kRdmaPortStart + cfg.randomOffset + i0, true) := by
      simp [SetupRpcServer, hf, SetupRpcServerWithRetry, hrun]
    refine ⟨?_, ?_, ?_, ?_⟩
    · simp [RDMATransporter.Start, hsetup, hsp]
    · simp [RDMATransporter.Start, hsetup, hsp, RDMATransporter.GetBindPort,
        initPerf_localServerPort]
    · simp only [kRdmaPortStart]
      omega
    · simp only [kRdmaPortStart]
      omega
  · intro hf hall
    have hrun := retryCounting_scan_exhausts cfg.bindOk
      (kRdmaPortStart + cfg.randomOffset) cfg.maxRetry hall
      cfg.maxRetry 0 s.localServerPort (by omega)
    have hsp : SetupRpcServer cfg s.localServerPort
        = (s.localServerPort, false) := by
      simp [SetupRpcServer, hf, SetupRpcServerWithRetry, hrun]
    simp [RDMATransporter.Start, hsetup, hsp]

theorem start_bind_port_semantics_witness :
    RDMATransporter.GetBindPort
      (RDMATransporter.Start ⟨true, true, 19001, false, 0, 3, fun _ => true⟩
        initialEngineState).1 = 19001 ∧
    ((RDMATransporter.Start
        ⟨true, false, 19001, false, 5, 3, fun p => p = 51015⟩
        initialEngineState).2 = true ∧
      RDMATransporter.GetBindPort
        (RDMATransporter.Start
          ⟨true, false, 19001, false, 5, 3, fun p => p = 51015⟩
          initialEngineState).1 = kRdmaPortStart + 5 + 0 ∧
      51010 ≤ kRdmaPortStart + 5 + 0 ∧
      kRdmaPortStart + 5 + 0 < 51010 + 1000 + 3) ∧
    (RDMATransporter.Start ⟨true, false, 19001, false, 5, 3, fun _ => false⟩
      initialEngineState).2 = false :=
  ⟨(start_bind_port_semantics ⟨true, true, 19001, false, 0, 3, fun _ => true⟩
      initialEngineState rfl (by decide)).1 rfl (by decide),
   (start_bind_port_semantics ⟨true, false, 19001, false, 5, 3, fun p => p = 51015⟩
      initialEngineState rfl (by decide)).2.1 rfl 0 (by decide) (by decide)
      (fun m hm => absurd hm (Nat.not_lt_zero m)),
   (start_bind_port_semantics ⟨true, false, 19001, false, 5, 3, fun _ => false⟩
      initialEngineState rfl (by decide)).2.2 rfl (fun m _ => rfl)⟩

end astate
